import Mathlib

/-
Verification of the imq MQTT broker (github.com/skyformat99/imq) against its
natural-language specification.

The development shallowly embeds the Go source:
  - vendor/github.com/goiiot/libmqtt/persist.go : the persistence subsystem
    (nonePersist, memPersist, filePersist with synchronous and buffered modes);
  - mqtt/base.go, mqtt/conf.go : listener supervision, configuration,
    graceful shutdown (destroy);
  - the connection-handshake handlers (handleConn / handleWS / tcpWorker).

Go machine integers (uint32 counters manipulated with sync/atomic) are
modelled as Nat with explicit arithmetic modulo 2^32 where the Go code can
wrap. Go's sync.Map is modelled as an association list. The byte-level
packet codec is an external collaborator per the spec: a stored file's
content is modelled as the packet it decodes to, so Decode of a file
written by this store succeeds and returns that packet, and a read of a
missing or failing file is an error.
-/

set_option autoImplicit false

namespace IMQ

/-- Abstract MQTT packet. The codec is out of scope; only packet identity
matters to the persistence layer, so a packet is an opaque tag. -/
structure Packet where
  tag : Nat
deriving DecidableEq, Repr

abbrev Key := String

/-- Modulus of Go's uint32 arithmetic (the persist counters are uint32). -/
def U32 : Nat := 2 ^ 32

/-- Association-list lookup, modelling sync.Map.Load. -/
def mapLookup {α : Type} (k : String) : List (String × α) → Option α
  | [] => none
  | (q, v) :: t => if q = k then some v else mapLookup k t

/-- Association-list erase, modelling sync.Map.Delete. -/
def mapErase {α : Type} (k : String) : List (String × α) → List (String × α)
  | [] => []
  | (q, v) :: t => if q = k then mapErase k t else (q, v) :: mapErase k t

/-- Association-list insert-or-replace, modelling sync.Map.Store. -/
def mapPut {α : Type} (k : String) (v : α) (l : List (String × α)) :
    List (String × α) :=
  (k, v) :: mapErase k l

/-- Error outcomes of the persist methods: ErrPacketDroppedByStrategy, or a
file-system error surfaced by the file backend. -/
inductive FsError where
  | notExist
  | ioFailure
deriving DecidableEq, Repr

/-- Result value of Store/Delete: Go returns error (nil = ok). -/
inductive PersistErr where
  | droppedByStrategy
  | ioErr (e : FsError)
deriving DecidableEq, Repr

/-- PersistStrategy from persist.go: Interval (time.Duration, 0 = persist on
every action), MaxCount (uint32, 0 = unlimited), DropOnExceed,
DuplicateReplace. -/
structure PersistStrategy where
  interval : Nat
  maxCount : Nat
  dropOnExceed : Bool
  duplicateReplace : Bool
deriving DecidableEq, Repr

/- ------------------------------------------------------------------
   nonePersist: the no-op backend.
   ------------------------------------------------------------------ -/

/-- nonePersist.Store: always returns nil and stores nothing. -/
def noneStore (_key : Key) (_p : Packet) : Option PersistErr := none

/-- nonePersist.Load: always returns (nil, false). -/
def noneLoad (_key : Key) : Option Packet := none

/-- nonePersist.Delete: always returns nil. -/
def noneDelete (_key : Key) : Option PersistErr := none

/-- nonePersist.Destroy: always returns nil. -/
def noneDestroy : Option PersistErr := none

/- ------------------------------------------------------------------
   memPersist: the in-memory backend.
   ------------------------------------------------------------------ -/

/-- memPersist: data is a sync.Map, n the atomic uint32 live counter. -/
structure MemPersist where
  data : List (Key × Packet)
  n : Nat
  strategy : PersistStrategy
deriving DecidableEq, Repr

/-- memPersist.Store. Drop check first (MaxCount > 0, n >= MaxCount,
DropOnExceed), then LoadOrStore; a fresh key increments n (uint32 add),
a present key is overwritten only when DuplicateReplace. -/
def memStore (m : MemPersist) (key : Key) (p : Packet) :
    MemPersist × Option PersistErr :=
  if m.strategy.maxCount > 0 ∧ m.n ≥ m.strategy.maxCount ∧
      m.strategy.dropOnExceed = true then
    (m, some .droppedByStrategy)
  else
    match mapLookup key m.data with
    | none => ({ m with data := mapPut key p m.data, n := (m.n + 1) % U32 }, none)
    | some _ =>
      if m.strategy.duplicateReplace then
        ({ m with data := mapPut key p m.data }, none)
      else
        (m, none)

/-- memPersist.Load. -/
def memLoad (m : MemPersist) (key : Key) : Option Packet :=
  mapLookup key m.data

/-- memPersist.Delete: removes the entry, never touches n, returns nil. -/
def memDelete (m : MemPersist) (key : Key) : MemPersist × Option PersistErr :=
  ({ m with data := mapErase key m.data }, none)

/-- memPersist.Destroy: replaces the map with a fresh one; n is kept. -/
def memDestroy (m : MemPersist) : MemPersist × Option PersistErr :=
  ({ m with data := [] }, none)

/- ------------------------------------------------------------------
   filePersist: the file-backed backend.
   ------------------------------------------------------------------ -/

/-- Model of the directory the file backend writes into: files maps a path
to the packet its content decodes to; failing lists paths on which any
open/read/write/remove fails with a non-not-exist I/O error. -/
structure Fs where
  files : List (String × Packet)
  failing : List String
deriving DecidableEq, Repr

/-- ioutil.WriteFile: fails on a failing path, else creates or replaces the
file. -/
def fsWrite (path : String) (p : Packet) (fs : Fs) : Except FsError Fs :=
  if path ∈ fs.failing then .error .ioFailure
  else .ok { fs with files := mapPut path p fs.files }

/-- ioutil.ReadFile followed by Decode: not-exist when the file is absent,
an I/O error on a failing path, else the stored packet. -/
def fsRead (path : String) (fs : Fs) : Except FsError Packet :=
  if path ∈ fs.failing then .error .ioFailure
  else
    match mapLookup path fs.files with
    | none => .error .notExist
    | some p => .ok p

/-- os.Remove: not-exist error when the file is absent, I/O error on a
failing path, else removes the file. -/
def fsRemove (path : String) (fs : Fs) : Except FsError Fs :=
  if path ∈ fs.failing then .error .ioFailure
  else
    match mapLookup path fs.files with
    | none => .error .notExist
    | some _ => .ok { fs with files := mapErase path fs.files }

/-- Error of os.Open, as consulted by filePersist.exists. -/
def fsOpenErr (path : String) (fs : Fs) : Option FsError :=
  if path ∈ fs.failing then some .ioFailure
  else
    match mapLookup path fs.files with
    | none => some .notExist
    | some _ => none

/-- filePersist: dirPath, the staging map inMemBuf with its uint32 size
counter inMemSize, the strategy, and the uint32 on-disk file counter n. -/
structure FilePersist where
  dirPath : String
  inMemBuf : List (Key × Packet)
  inMemSize : Nat
  strategy : PersistStrategy
  n : Nat
deriving DecidableEq, Repr

/-- filePersist.getFilename: path.Join(dirPath, key + ".mqtt"). -/
def getFilename (m : FilePersist) (key : Key) : String :=
  m.dirPath ++ "/" ++ key ++ ".mqtt"

/-- filePersist.exists: os.Open on getFilename(key); only a not-exist error
counts as absent (any other error, or success, counts as present). -/
def fileExists (m : FilePersist) (key : Key) (fs : Fs) : Bool :=
  match fsOpenErr (getFilename m key) fs with
  | some .notExist => false
  | _ => true

/-- filePersist.store (the unexported synchronous write): WriteFile, then
n++ and inMemSize-- (both uint32, the decrement wraps below zero). -/
def fileStoreSync (m : FilePersist) (fs : Fs) (key : Key) (p : Packet) :
    (FilePersist × Fs) × Option PersistErr :=
  match fsWrite (getFilename m key) p fs with
  | .error e => ((m, fs), some (.ioErr e))
  | .ok fs2 =>
    (({ m with n := (m.n + 1) % U32,
                inMemSize := (m.inMemSize + (U32 - 1)) % U32 }, fs2), none)

/-- filePersist.Store: the drop check compares the uint32 sum n + inMemSize
(wrapping) against MaxCount; then, when the key has no on-disk file or
DuplicateReplace is set, either stages the record (Interval > 0) or writes
it synchronously (Interval = 0). -/
def fileStore (m : FilePersist) (fs : Fs) (key : Key) (p : Packet) :
    (FilePersist × Fs) × Option PersistErr :=
  if m.strategy.maxCount > 0 ∧ m.strategy.dropOnExceed = true ∧
      (m.n + m.inMemSize) % U32 ≥ m.strategy.maxCount then
    ((m, fs), some .droppedByStrategy)
  else
    if fileExists m key fs = false ∨ m.strategy.duplicateReplace = true then
      if m.strategy.interval > 0 then
        (({ m with inMemBuf := mapPut key p m.inMemBuf,
                    inMemSize := (m.inMemSize + 1) % U32 }, fs), none)
      else
        fileStoreSync m fs key p
    else
      ((m, fs), none)

/-- filePersist.Load: getPacketFromFile(getFilename(key)); any error is
collapsed into the absent outcome (nil, false). -/
def fileLoad (m : FilePersist) (fs : Fs) (key : Key) : Option Packet :=
  match fsRead (getFilename m key) fs with
  | .error _ => none
  | .ok p => some p

/-- filePersist.Delete: os.Remove(path.Join(dirPath, key)) — note the path
carries no ".mqtt" suffix, unlike getFilename — and the error is returned. -/
def fileDelete (m : FilePersist) (fs : Fs) (key : Key) :
    Fs × Option PersistErr :=
  match fsRemove (m.dirPath ++ "/" ++ key) fs with
  | .error e => (fs, some (.ioErr e))
  | .ok fs2 => (fs2, none)

/-- One pass of filePersist.worker after its sleep: Range over the staging
map, calling the synchronous store on each entry with the returned error
discarded, then delete every ranged key from the staging map (the key is
appended to persistedKeys whether or not its write succeeded). -/
def fileFlushOnce (m : FilePersist) (fs : Fs) : FilePersist × Fs :=
  let stepped := m.inMemBuf.foldl
    (fun (st : FilePersist × Fs) (kv : Key × Packet) =>
      ((fileStoreSync st.1 st.2 kv.1 kv.2).1))
    (m, fs)
  ({ stepped.1 with inMemBuf := [] }, stepped.2)

/- ------------------------------------------------------------------
   Connection handshake: handleConn / handleWS and tcpWorker, with the
   shared connections registry (a package-level sync.Map).
   ------------------------------------------------------------------ -/

/-- ConnPacket fields the handshake consumes. -/
structure ConnPacket where
  clientID : String
  keepalive : Nat
deriving DecidableEq, Repr

/-- First packet decoded from an accepted connection. -/
inductive FirstPacket where
  | connect (cp : ConnPacket)
  | nonConnect
deriving DecidableEq, Repr

/-- Outcome of mqtt.Decode on the first read: a decode error or a typed
packet. -/
inductive DecodeOutcome where
  | failure
  | decoded (p : FirstPacket)
deriving DecidableEq, Repr

/-- Observable effects of handleConn on one accepted connection. -/
structure HandleConnResult where
  closedByHandler : Bool
  connackSent : Bool
  loopsStartedFor : Option ConnPacket
deriving DecidableEq, Repr

/-- handleConn: on a decode error it logs and returns (no Close call); on a
packet that is not a ConnPacket it calls conn.Close() and returns; on a
ConnPacket it builds a connImpl and starts the receive/send loops. It never
writes a connect-acknowledgment and never touches the registry (the store
of the client connection is left as a TODO). -/
def handleConn (d : DecodeOutcome) : HandleConnResult :=
  match d with
  | .failure => { closedByHandler := false, connackSent := false,
                  loopsStartedFor := none }
  | .decoded .nonConnect => { closedByHandler := true, connackSent := false,
                              loopsStartedFor := none }
  | .decoded (.connect cp) => { closedByHandler := false, connackSent := false,
                                loopsStartedFor := some cp }

/-- handleWS: upgrades, defers conn.Close(), and runs handleConn on the
underlying connection; the deferred Close always runs when the handler
returns. -/
def handleWS (d : DecodeOutcome) : HandleConnResult :=
  let r := handleConn d
  { r with closedByHandler := true }

/-- Entry of the connections registry: the connection identity and its
connect packet. -/
structure RegEntry where
  connID : Nat
  pkt : ConnPacket
deriving DecidableEq, Repr

/-- State threaded through tcpWorker: the shared connections sync.Map and
the set of connections whose Close has been called. -/
structure WorkerState where
  registry : List (String × RegEntry)
  closedConns : List Nat
deriving DecidableEq, Repr

/-- tcpWorker: decodes one packet; on error it returns; on a non-connect
packet it closes the connection; on a ConnPacket it builds a connImpl and
executes connections.Store("", c) — the entry key is the empty-string
literal, and no prior registry entry is closed or cancelled. -/
def tcpWorker (st : WorkerState) (connID : Nat) (d : DecodeOutcome) :
    WorkerState :=
  match d with
  | .failure => st
  | .decoded .nonConnect => { st with closedConns := connID :: st.closedConns }
  | .decoded (.connect cp) =>
      { st with registry := mapPut "" { connID := connID, pkt := cp } st.registry }

/- ------------------------------------------------------------------
   Listener supervision: conf.go configuration, base.go accept loops
   and destroy.
   ------------------------------------------------------------------ -/

/-- Service fields of conf.go's config consumed by base.go. -/
structure Config where
  tcpPort : Int
  tcpsPort : Int
  wsPort : Int
  wssPort : Int
  maxTcp : Int
  maxTcps : Int
  maxWs : Int
  maxWss : Int
  graceShutdownTime : Nat
deriving DecidableEq, Repr

/-- Result of one net.Listener.Accept call. -/
inductive AcceptOutcome where
  | acceptFailed
  | accepted (connID : Nat)
deriving DecidableEq, Repr

/-- What the accept loop body does with one Accept result. -/
inductive LoopAction where
  | continueLoop
  | handle (connID : Nat)
deriving DecidableEq, Repr

/-- Body of the for-loop in initTCPListen (initTCPSListen is identical): a
failed Accept logs and continues; an accepted connection is handed to
handleConn unconditionally — neither cfg.maxTcp nor the number of live
connections is consulted anywhere in the loop. -/
def tcpLoopBody (_cfg : Config) (_liveConns : Nat) (r : AcceptOutcome) :
    LoopAction :=
  match r with
  | .acceptFailed => .continueLoop
  | .accepted connID => .handle connID

/-- Init enables the TCP listener when conf.tcpPort > 0 (0 disables it);
the ws/wss/tcps ports are checked the same way. -/
def tcpEnabled (cfg : Config) : Bool := cfg.tcpPort > 0

/-- One net listener: identity plus whether Close was called on it. -/
structure NetListener where
  lid : Nat
  closed : Bool
deriving DecidableEq, Repr

/-- One http.Server: identity plus whether Shutdown was invoked and, if so,
with what context timeout (nanoseconds). -/
structure HttpSrv where
  hid : Nat
  shutdownTimeout : Option Nat
deriving DecidableEq, Repr

/-- State of the mqtt package: the four package-level service variables
read by destroy, and the listener or server each init function actually
created and uses in its accept loop. In Go the init functions declare
tcpService, tcpsService, wsService, wssService with := inside the function
body, creating locals that shadow the package-level variables, so the
package-level variables are never assigned. -/
structure MqttService where
  tcpServiceVar : Option NetListener
  tcpsServiceVar : Option NetListener
  wsServiceVar : Option HttpSrv
  wssServiceVar : Option HttpSrv
  tcpLocal : Option NetListener
  tcpsLocal : Option NetListener
  wsLocal : Option HttpSrv
  wssLocal : Option HttpSrv
deriving DecidableEq, Repr

/-- Zero value of the package-level state: all service variables nil. -/
def initialService : MqttService :=
  { tcpServiceVar := none, tcpsServiceVar := none,
    wsServiceVar := none, wssServiceVar := none,
    tcpLocal := none, tcpsLocal := none, wsLocal := none, wssLocal := none }

/-- initTCPListen: tcpService, err := net.ListenTCP(...) binds a local, so
only the local is set; the package-level tcpServiceVar keeps its value. -/
def initTCPListen (s : MqttService) : MqttService :=
  { s with tcpLocal := some { lid := 1, closed := false } }

/-- initTCPSListen: tcpsService, err := tls.Listen(...) likewise binds a
local. -/
def initTCPSListen (s : MqttService) : MqttService :=
  { s with tcpsLocal := some { lid := 2, closed := false } }

/-- initWSListen: wsService := &http.Server{...} binds a local. -/
def initWSListen (s : MqttService) : MqttService :=
  { s with wsLocal := some { hid := 3, shutdownTimeout := none } }

/-- initWSSListen: wssService := &http.Server{...} binds a local. -/
def initWSSListen (s : MqttService) : MqttService :=
  { s with wssLocal := some { hid := 4, shutdownTimeout := none } }

/-- destroy(timeout): closes tcpService and tcpsService when non-nil and
invokes Shutdown with the timeout context on wsService and wssService when
non-nil — all four reads are of the package-level variables. -/
def destroy (timeout : Nat) (s : MqttService) : MqttService :=
  { s with
    tcpServiceVar := s.tcpServiceVar.map (fun l => { l with closed := true }),
    tcpsServiceVar := s.tcpsServiceVar.map (fun l => { l with closed := true }),
    wsServiceVar := s.wsServiceVar.map
      (fun h => { h with shutdownTimeout := some timeout }),
    wssServiceVar := s.wssServiceVar.map
      (fun h => { h with shutdownTimeout := some timeout }) }

/-- Nanoseconds in one second (Go time.Second). -/
def nsPerSecond : Nat := 1000000000

/-- The shutdown goroutine Init spawns: on the exit signal it calls
destroy(10 * time.Second) — the literal 10 seconds, not
cfg.graceShutdownTime. -/
def exitHandler (_cfg : Config) (s : MqttService) : MqttService :=
  destroy (10 * nsPerSecond) s

/- ------------------------------------------------------------------
   Concrete states used by the closed theorems below.
   ------------------------------------------------------------------ -/

/-- Empty storage directory with no failing paths. -/
def emptyFs : Fs := { files := [], failing := [] }

/-- Synchronous file store, unlimited capacity, duplicate-replace on. -/
def syncPlainPersist : FilePersist :=
  { dirPath := "d", inMemBuf := [], inMemSize := 0,
    strategy := { interval := 0, maxCount := 0, dropOnExceed := false,
                  duplicateReplace := true }, n := 0 }

/-- Synchronous file store with MaxCount 1 and DropOnExceed set. -/
def syncCapPersist : FilePersist :=
  { dirPath := "d", inMemBuf := [], inMemSize := 0,
    strategy := { interval := 0, maxCount := 1, dropOnExceed := true,
                  duplicateReplace := true }, n := 0 }

/-- First store into the capped synchronous store, key "a". -/
def syncCapStore1 : (FilePersist × Fs) × Option PersistErr :=
  fileStore syncCapPersist emptyFs "a" { tag := 10 }

/-- Second store into the capped synchronous store, fresh key "b". -/
def syncCapStore2 : (FilePersist × Fs) × Option PersistErr :=
  fileStore syncCapStore1.1.1 syncCapStore1.1.2 "b" { tag := 20 }

/-- Store of key "k" into the plain synchronous store. -/
def delStore : (FilePersist × Fs) × Option PersistErr :=
  fileStore syncPlainPersist emptyFs "k" { tag := 7 }

/-- Delete of key "k" right after delStore. -/
def delAfterStore : Fs × Option PersistErr :=
  fileDelete delStore.1.1 delStore.1.2 "k"

/-- Buffered file store (Interval 1s) with duplicate-replace off. -/
def bufNoReplacePersist : FilePersist :=
  { dirPath := "d", inMemBuf := [], inMemSize := 0,
    strategy := { interval := nsPerSecond, maxCount := 0, dropOnExceed := false,
                  duplicateReplace := false }, n := 0 }

/-- Buffered store of "k" with payload P1. -/
def bufStore1 : (FilePersist × Fs) × Option PersistErr :=
  fileStore bufNoReplacePersist emptyFs "k" { tag := 1 }

/-- Buffered store of "k" with payload P2, before any flush. -/
def bufStore2 : (FilePersist × Fs) × Option PersistErr :=
  fileStore bufStore1.1.1 bufStore1.1.2 "k" { tag := 2 }

/-- The flush pass after both buffered stores. -/
def bufFlushed : FilePersist × Fs :=
  fileFlushOnce bufStore2.1.1 bufStore2.1.2

/-- Fresh synchronous file store in a directory dir with a given
duplicate-replace flag, as used by the duplicate-policy theorem. -/
def syncDupPersist (dir : String) (dup : Bool) : FilePersist :=
  { dirPath := dir, inMemBuf := [], inMemSize := 0,
    strategy := { interval := 0, maxCount := 0, dropOnExceed := false,
                  duplicateReplace := dup }, n := 0 }

/-- First store of key kf with payload q1 into a fresh syncDupPersist. -/
def syncDupStore1 (dir kf : String) (dup : Bool) (q1 : Packet) :
    (FilePersist × Fs) × Option PersistErr :=
  fileStore (syncDupPersist dir dup) emptyFs kf q1

/-- Second store of the same key kf with payload q2. -/
def syncDupStore2 (dir kf : String) (dup : Bool) (q1 q2 : Packet) :
    (FilePersist × Fs) × Option PersistErr :=
  fileStore (syncDupStore1 dir kf dup q1).1.1 (syncDupStore1 dir kf dup q1).1.2 kf q2

/-- Registry state after a first successful handshake, client id "c1". -/
def regAfterFirst : WorkerState :=
  tcpWorker { registry := [], closedConns := [] } 1
    (.decoded (.connect { clientID := "c1", keepalive := 10 }))

/-- Registry state after a second successful handshake, client id "c2". -/
def regAfterSecond : WorkerState :=
  tcpWorker regAfterFirst 2 (.decoded (.connect { clientID := "c2", keepalive := 10 }))

/-- Configuration with all four transports enabled and a 5-second grace
period. -/
def sampleConfig : Config :=
  { tcpPort := 1883, tcpsPort := 8883, wsPort := 8083, wssPort := 18083,
    maxTcp := 0, maxTcps := 0, maxWs := 0, maxWss := 0,
    graceShutdownTime := 5 * nsPerSecond }

/-- Service state after all four listeners have started. -/
def runningService : MqttService :=
  initWSSListen (initWSListen (initTCPSListen (initTCPListen initialService)))

/-- Service state after the shutdown signal fired. -/
def afterShutdownService : MqttService :=
  exitHandler sampleConfig runningService

/-- Configuration with every per-transport connection cap set to 1. -/
def cappedConfig : Config :=
  { tcpPort := 1883, tcpsPort := 8883, wsPort := 8083, wssPort := 18083,
    maxTcp := 1, maxTcps := 1, maxWs := 1, maxWss := 1,
    graceShutdownTime := 10 * nsPerSecond }

/-- Directory holding file d/k.mqtt whose read fails with an I/O error. -/
def failingReadFs : Fs :=
  { files := [("d/k.mqtt", { tag := 7 })], failing := ["d/k.mqtt"] }

/- ------------------------------------------------------------------
   Theorems.
   ------------------------------------------------------------------ -/



theorem mapLookup_mapPut_self {α : Type} (k : String) (v : α)
    (l : List (String × α)) : mapLookup k (mapPut k v l) = some v := by
  simp [mapPut, mapLookup]

theorem fileLoad_put (m w : FilePersist) (fls : List (String × Packet))
    (k : Key) (p : Packet) (hdir : m.dirPath = w.dirPath) :
    fileLoad m { files := mapPut (getFilename w k) p fls, failing := [] } k
      = some p := by
  unfold fileLoad fsRead
  have hg : getFilename m k = getFilename w k := by
    unfold getFilename
    rw [hdir]
  rw [hg, if_neg (List.not_mem_nil (getFilename w k)), mapLookup_mapPut_self]

theorem mem_store_fresh_load (m : MemPersist) (k : Key) (p : Packet)
    (hfresh : mapLookup k m.data = none)
    (hdrop : ¬(m.strategy.maxCount > 0 ∧ m.n ≥ m.strategy.maxCount ∧
        m.strategy.dropOnExceed = true)) :
    memLoad (memStore m k p).1 k = some p := by
  unfold memStore
  rw [if_neg hdrop, hfresh]
  simp [memLoad, mapLookup_mapPut_self]

theorem file_sync_store_load (fp : FilePersist) (fs : Fs) (k : Key) (p : Packet)
    (hsync : fp.strategy.interval = 0)
    (hfail : fs.failing = [])
    (hdrop : ¬(fp.strategy.maxCount > 0 ∧ fp.strategy.dropOnExceed = true ∧
        (fp.n + fp.inMemSize) % U32 ≥ fp.strategy.maxCount))
    (hdup : fileExists fp k fs = false ∨ fp.strategy.duplicateReplace = true) :
    fileLoad (fileStore fp fs k p).1.1 (fileStore fp fs k p).1.2 k = some p := by
  unfold fileStore
  rw [if_neg hdrop, if_pos hdup, if_neg (by simp [hsync])]
  unfold fileStoreSync fsWrite
  rw [if_neg (by simp [hfail])]
  simp only [hfail]
  exact fileLoad_put _ fp fs.files k p rfl

/-- C1 counterexample: for the no-op persistence backend, store("k",P)
reports success yet the immediately following load("k") returns absent,
not P, although no overflow or duplicate condition is in effect (the no-op
backend never stores anything). -/
theorem nonePersist_store_then_load_absent :
    noneStore "k" { tag := 1 } = none ∧ noneLoad "k" ≠ some { tag := 1 } := by
  decide

/-- C1 (amended): store(K,P) immediately followed by load(K) returns P for
the in-memory backend (fresh key, no drop condition) and for the file
backend in synchronous mode (no failing path, no drop condition, and the
key fresh on disk or duplicate-replace set); the no-op backend always loads
absent, and in buffered mode the unflushed write is invisible to load. -/
theorem store_then_load_mem_and_sync_file
    (m : MemPersist) (k : Key) (p : Packet)
    (fp : FilePersist) (fs : Fs) (kf : Key) (pf : Packet)
    (hfresh : mapLookup k m.data = none)
    (hdropM : ¬(m.strategy.maxCount > 0 ∧ m.n ≥ m.strategy.maxCount ∧
        m.strategy.dropOnExceed = true))
    (hsync : fp.strategy.interval = 0)
    (hfail : fs.failing = [])
    (hdropF : ¬(fp.strategy.maxCount > 0 ∧ fp.strategy.dropOnExceed = true ∧
        (fp.n + fp.inMemSize) % U32 ≥ fp.strategy.maxCount))
    (hdup : fileExists fp kf fs = false ∨ fp.strategy.duplicateReplace = true) :
    memLoad (memStore m k p).1 k = some p ∧
    fileLoad (fileStore fp fs kf pf).1.1 (fileStore fp fs kf pf).1.2 kf = some pf :=
  ⟨mem_store_fresh_load m k p hfresh hdropM,
   file_sync_store_load fp fs kf pf hsync hfail hdropF hdup⟩

/-- C1 witness: the amended round-trip at concrete inputs, with the
hypotheses discharged there. -/
theorem store_then_load_mem_and_sync_file_witness :
    mapLookup "k"
      ({ data := [], n := 0,
         strategy := { interval := 0, maxCount := 0, dropOnExceed := false,
                       duplicateReplace := true } } : MemPersist).data = none ∧
    (fileExists syncPlainPersist "k" emptyFs = false ∨
      syncPlainPersist.strategy.duplicateReplace = true) ∧
    memLoad (memStore
      { data := [], n := 0,
        strategy := { interval := 0, maxCount := 0, dropOnExceed := false,
                      duplicateReplace := true } } "k" { tag := 5 }).1 "k"
      = some { tag := 5 } ∧
    fileLoad (fileStore syncPlainPersist emptyFs "k" { tag := 6 }).1.1
        (fileStore syncPlainPersist emptyFs "k" { tag := 6 }).1.2 "k"
      = some { tag := 6 } := by
  refine ⟨by decide, by decide, ?_, ?_⟩
  · exact (store_then_load_mem_and_sync_file
      { data := [], n := 0,
        strategy := { interval := 0, maxCount := 0, dropOnExceed := false,
                      duplicateReplace := true } } "k" { tag := 5 }
      syncPlainPersist emptyFs "k" { tag := 6 }
      (by decide) (by decide) (by decide) (by decide) (by decide) (by decide)).1
  · exact (store_then_load_mem_and_sync_file
      { data := [], n := 0,
        strategy := { interval := 0, maxCount := 0, dropOnExceed := false,
                      duplicateReplace := true } } "k" { tag := 5 }
      syncPlainPersist emptyFs "k" { tag := 6 }
      (by decide) (by decide) (by decide) (by decide) (by decide) (by decide)).2

/-- C2 (code bug): synchronous file mode with MaxCount 1 and DropOnExceed:
the first store succeeds but decrements the uint32 staging counter it never
incremented, wrapping it to 2^32 - 1, so the capacity check's wrapping sum
n + inMemSize evaluates to 0 and never reaches MaxCount; the second store
with a fresh distinct key is therefore not dropped and its packet loads
back, where the claim requires the dropped outcome and an absent load. -/
theorem sync_file_cap_never_fires_after_underflow :
    syncCapStore1.2 = none ∧
    syncCapStore1.1.1.inMemSize = U32 - 1 ∧
    syncCapStore2.2 = none ∧
    fileLoad syncCapStore2.1.1 syncCapStore2.1.2 "b" = some { tag := 20 } := by
  decide

/-- C3 (code bug): on the file backend delete is neither effective nor
idempotent: store("k",P) writes d/k.mqtt, but Delete("k") removes d/k (the
suffix-less path) and so surfaces os.Remove's not-exist error, after which
load("k") still returns P; deleting a never-stored key likewise returns an
error instead of ok. -/
theorem file_delete_wrong_path_and_errors :
    delStore.2 = none ∧
    delAfterStore.2 = some (.ioErr .notExist) ∧
    fileLoad delStore.1.1 delAfterStore.1 "k" = some { tag := 7 } ∧
    (fileDelete syncPlainPersist emptyFs "x").2 = some (.ioErr .notExist) := by
  decide

/-- C4 counterexample: buffered file mode with duplicate-replace off:
storing "k" with P1 then P2 before any flush overwrites the staged record,
because the duplicate check consults only the on-disk state; after the
flush, load("k") returns P2 where the claim requires P1. -/
theorem buffered_duplicate_not_kept :
    bufStore1.2 = none ∧ bufStore2.2 = none ∧
    fileLoad bufFlushed.1 bufFlushed.2 "k" = some { tag := 2 } ∧
    fileLoad bufFlushed.1 bufFlushed.2 "k" ≠ some { tag := 1 } := by
  decide

/-- C4 (amended): the duplicate policy holds for the in-memory backend and
for the file backend in synchronous mode: storing key K twice with payloads
P1 then P2 into a fresh store leaves load(K) = P1 when duplicate-replace is
false — the second store still reporting success — and load(K) = P2 when it
is true; in buffered file mode the staged record is overwritten regardless
of the flag, and the no-op backend always loads absent. -/
theorem duplicate_policy_mem_and_sync_file
    (k : Key) (p1 p2 : Packet) (dir kf : String) (q1 q2 : Packet) (dup : Bool) :
    (memStore (memStore
      { data := [], n := 0,
        strategy := { interval := 0, maxCount := 0, dropOnExceed := false,
                      duplicateReplace := dup } } k p1).1 k p2).2 = none ∧
    memLoad (memStore (memStore
      { data := [], n := 0,
        strategy := { interval := 0, maxCount := 0, dropOnExceed := false,
                      duplicateReplace := dup } } k p1).1 k p2).1 k
      = some (if dup then p2 else p1) ∧
    (syncDupStore2 dir kf dup q1 q2).2 = none ∧
    fileLoad (syncDupStore2 dir kf dup q1 q2).1.1
        (syncDupStore2 dir kf dup q1 q2).1.2 kf
      = some (if dup then q2 else q1) := by
  cases dup <;>
    simp [memStore, memLoad, mapLookup, mapPut, mapErase,
      syncDupStore2, syncDupStore1, syncDupPersist, emptyFs,
      fileStore, fileStoreSync, fileLoad, fileExists, fsOpenErr, fsWrite,
      fsRead, getFilename]

/-- C5 (code bug): after two successful handshakes with distinct client ids
"c1" and "c2", the shared registry holds neither id: both connections were
stored under the empty-string literal, the second silently replacing the
first, and no connection was closed by the eviction the claim requires. -/
theorem registry_keyed_by_empty_string_no_eviction_close :
    mapLookup "c1" regAfterSecond.registry = none ∧
    mapLookup "c2" regAfterSecond.registry = none ∧
    mapLookup "" regAfterSecond.registry
      = some { connID := 2, pkt := { clientID := "c2", keepalive := 10 } } ∧
    regAfterSecond.closedConns = [] := by
  decide

/-- C6 (code bug): handleConn on a decode failure returns without calling
Close on the transport, though no connect-acknowledgment is sent; the
sibling branch for a well-formed non-connect packet does close the
transport, and only the WebSocket wrapper's deferred Close closes the
transport on the decode-failure path. -/
theorem decode_failure_leaves_tcp_conn_open :
    handleConn .failure
      = { closedByHandler := false, connackSent := false,
          loopsStartedFor := none } ∧
    handleConn (.decoded .nonConnect)
      = { closedByHandler := true, connackSent := false,
          loopsStartedFor := none } ∧
    handleWS .failure
      = { closedByHandler := true, connackSent := false,
          loopsStartedFor := none } := by
  decide

/-- C7 (code bug): after all four listeners start and the shutdown signal
fires, the listeners the accept loops actually use are still open and no
HTTP shutdown drain was invoked: every init function bound its listener to
a local variable shadowing the package-level variable destroy reads, so
destroy finds all four service variables nil and does nothing (and the
drain timeout it would pass is the literal 10 seconds, not the configured
grace period). -/
theorem shutdown_closes_no_listener :
    afterShutdownService.tcpLocal = some { lid := 1, closed := false } ∧
    afterShutdownService.tcpsLocal = some { lid := 2, closed := false } ∧
    afterShutdownService.wsLocal = some { hid := 3, shutdownTimeout := none } ∧
    afterShutdownService.wssLocal = some { hid := 4, shutdownTimeout := none } ∧
    afterShutdownService.tcpServiceVar = none ∧
    afterShutdownService.wsServiceVar = none := by
  decide

/-- C8 counterexample: a backend read failure during Load is not surfaced
as a distinguishable failure: Load over a directory where the key's file
exists but reading it fails returns exactly the same absent outcome as Load
of a key that was never stored. -/
theorem load_failure_indistinguishable_from_absent :
    fileLoad syncPlainPersist failingReadFs "k" = none ∧
    fileLoad syncPlainPersist emptyFs "k" = none := by
  decide

/-- C8 (amended): synchronous-mode Store and Delete propagate a backend I/O
failure to the caller as an error outcome, but Load collapses a read
failure into the absent outcome, and the buffered flush pass discards a
failed write silently, together with its staged record. -/
theorem file_io_error_propagation (dir k : String) (p : Packet) :
    (fileStore
      { dirPath := dir, inMemBuf := [], inMemSize := 0,
        strategy := { interval := 0, maxCount := 0, dropOnExceed := false,
                      duplicateReplace := true }, n := 0 }
      { files := [], failing := [dir ++ "/" ++ k ++ ".mqtt"] } k p).2
        = some (.ioErr .ioFailure) ∧
    (fileDelete
      { dirPath := dir, inMemBuf := [], inMemSize := 0,
        strategy := { interval := 0, maxCount := 0, dropOnExceed := false,
                      duplicateReplace := true }, n := 0 }
      { files := [], failing := [dir ++ "/" ++ k] } k).2
        = some (.ioErr .ioFailure) ∧
    fileLoad
      { dirPath := dir, inMemBuf := [], inMemSize := 0,
        strategy := { interval := 0, maxCount := 0, dropOnExceed := false,
                      duplicateReplace := true }, n := 0 }
      { files := [(dir ++ "/" ++ k ++ ".mqtt", p)],
        failing := [dir ++ "/" ++ k ++ ".mqtt"] } k = none ∧
    (fileFlushOnce
      { dirPath := dir, inMemBuf := [(k, p)], inMemSize := 1,
        strategy := { interval := nsPerSecond, maxCount := 0,
                      dropOnExceed := false, duplicateReplace := true }, n := 0 }
      { files := [], failing := [dir ++ "/" ++ k ++ ".mqtt"] }).1.inMemBuf = [] ∧
    fileLoad
      (fileFlushOnce
        { dirPath := dir, inMemBuf := [(k, p)], inMemSize := 1,
          strategy := { interval := nsPerSecond, maxCount := 0,
                        dropOnExceed := false, duplicateReplace := true }, n := 0 }
        { files := [], failing := [dir ++ "/" ++ k ++ ".mqtt"] }).1
      (fileFlushOnce
        { dirPath := dir, inMemBuf := [(k, p)], inMemSize := 1,
          strategy := { interval := nsPerSecond, maxCount := 0,
                        dropOnExceed := false, duplicateReplace := true }, n := 0 }
        { files := [], failing := [dir ++ "/" ++ k ++ ".mqtt"] }).2 k = none := by
  refine ⟨?_, ?_, ?_, ?_, ?_⟩ <;>
    simp [fileStore, fileStoreSync, fileDelete, fileLoad, fileFlushOnce,
      fsWrite, fsRead, fsRemove, fsOpenErr, fileExists, getFilename]

/-- C9 (code bug): the accept-loop body hands every accepted connection to
the handler no matter the configured per-transport cap or the live count:
with max_tcp = 1 and one (or five) live connections a new connection is
still handled; only a failed Accept makes the loop continue without
handling, and a port value above 0 enables the listener. -/
theorem cap_not_enforced_by_accept_loop :
    tcpLoopBody cappedConfig 1 (.accepted 7) = .handle 7 ∧
    tcpLoopBody cappedConfig 5 (.accepted 8) = .handle 8 ∧
    tcpLoopBody cappedConfig 0 .acceptFailed = .continueLoop ∧
    tcpEnabled cappedConfig = true := by
  decide

/-- C10: the in-memory backend's live counter is preserved by both Delete
and Destroy, so once the counter has reached MaxCount with DropOnExceed
set, a store of a fresh key is dropped even immediately after a delete or a
destroy, and the packet is not stored. -/
theorem mem_counter_never_decremented
    (m : MemPersist) (k k2 : Key) (p : Packet)
    (hmax : m.strategy.maxCount > 0)
    (hdrop : m.strategy.dropOnExceed = true)
    (hn : m.n ≥ m.strategy.maxCount) :
    (memDelete m k).1.n = m.n ∧
    (memDestroy m).1.n = m.n ∧
    (memStore (memDelete m k).1 k2 p).2 = some .droppedByStrategy ∧
    (memStore (memDestroy m).1 k2 p).2 = some .droppedByStrategy ∧
    memLoad (memStore (memDestroy m).1 k2 p).1 k2 = none := by
  refine ⟨rfl, rfl, ?_, ?_, ?_⟩
  · unfold memStore memDelete
    rw [if_pos ⟨hmax, hn, hdrop⟩]
  · unfold memStore memDestroy
    rw [if_pos ⟨hmax, hn, hdrop⟩]
  · unfold memStore memDestroy memLoad
    rw [if_pos ⟨hmax, hn, hdrop⟩]
    rfl

/-- C10 witness: the drop-after-destroy consequence at a concrete store
that has reached its cap, with the hypotheses discharged there. -/
theorem mem_counter_never_decremented_witness :
    (({ data := [("a", { tag := 1 })], n := 1,
        strategy := { interval := 0, maxCount := 1, dropOnExceed := true,
                      duplicateReplace := true } } : MemPersist).strategy.maxCount
      > 0) ∧
    (memStore (memDestroy
      { data := [("a", { tag := 1 })], n := 1,
        strategy := { interval := 0, maxCount := 1, dropOnExceed := true,
                      duplicateReplace := true } }).1 "b" { tag := 2 }).2
      = some .droppedByStrategy := by
  refine ⟨by decide, ?_⟩
  exact (mem_counter_never_decremented
    { data := [("a", { tag := 1 })], n := 1,
      strategy := { interval := 0, maxCount := 1, dropOnExceed := true,
                    duplicateReplace := true } } "a" "b" { tag := 2 }
    (by decide) (by decide) (by decide)).2.2.2.1

end IMQ
